import Mathlib

/-!
Verification of the voice-gated command controller of the synap_webapp
repository (`src/components/VoiceAssistant.jsx`).

The controller is embedded shallowly: the backend round-trips
(`authenticateVoice`, `startChallenge`, `verifyChallengeWithText`,
`enrollUser`, `recordAudio`) are oracles passed in as explicit parameters,
React state becomes an explicit record `SysState`, and each handler
(`identifyVoice`, `performVerification`, `runEnrollment`, `processCommand`)
becomes a pure function from the current state and the oracle outcomes to
the next state together with its observable effects (router invocation,
backend queries made, number of capture attempts).
-/

namespace Synap

/-- An audio sample (a JS `Blob`): opaque payload summarized by its byte size. -/
structure Blob where
  size : Nat
deriving DecidableEq, Repr

/-- Response of the backend per-profile `authenticateVoice` operation. -/
structure AuthResult where
  authenticated : Bool
  confidence : ℚ
  decision : String
deriving DecidableEq, Repr

/-- Outcome of one `authenticateVoice` round-trip: a thrown error or a response. -/
inductive AuthOutcome where
  | err
  | ok (r : AuthResult)
deriving DecidableEq, Repr

/-- The running best match tracked inside `identifyVoice`. -/
structure BestMatch where
  user : Option String
  score : ℚ
  authenticated : Bool
  decision : String
deriving DecidableEq, Repr

/-- Result shape returned by `identifyVoice`; `error` and `decision` are `none`
on the return paths of the source that omit the corresponding field. -/
structure IdentifyResult where
  identified : Bool
  user : Option String
  score : ℚ
  error : Option String
  decision : Option String
deriving DecidableEq, Repr

/-- One iteration of the `for (const owner of enrolled)` loop of
`identifyVoice` (VoiceAssistant.jsx lines 123-139): a thrown per-profile
call is caught and skipped, a `NOT_ENROLLED` decision is skipped, an
authenticated result with strictly higher confidence replaces the best,
and otherwise a result replaces a non-authenticated best exactly when its
confidence is strictly higher. -/
def scanStep (oracle : String → AuthOutcome) (best : BestMatch) (owner : String) :
    BestMatch :=
  match oracle owner with
  | .err => best
  | .ok r =>
    if r.decision = "NOT_ENROLLED" then best
    else if r.authenticated = true ∧ best.score < r.confidence then
      ⟨some owner, r.confidence, true, r.decision⟩
    else if best.authenticated = false ∧ best.score < r.confidence then
      ⟨some owner, r.confidence, false, r.decision⟩
    else best

/-- `identifyVoice` (VoiceAssistant.jsx lines 107-143). `enrolled` is the
enrolled-profile list, `audioBlob` the sample accompanying the command, and
`oracle` gives the backend outcome of each per-profile authenticate call. -/
def identifyVoice (enrolled : List String) (audioBlob : Option Blob)
    (oracle : String → AuthOutcome) : IdentifyResult :=
  if enrolled = [] then ⟨true, none, 1, none, none⟩
  else
    match audioBlob with
    | none => ⟨false, none, 0, some "No audio", none⟩
    | some b =>
      if b.size < 1000 then ⟨false, none, 0, some "No audio", none⟩
      else
        let best := enrolled.foldl (scanStep oracle) ⟨none, 0, false, ""⟩
        ⟨best.authenticated, best.user, best.score, none, some best.decision⟩

/-- The profiles for which `identifyVoice` performs a backend
`authenticateVoice` call: none on the two early-return paths, every
enrolled profile once the loop is entered. -/
def identifyQueried (enrolled : List String) (audioBlob : Option Blob) :
    List String :=
  if enrolled = [] then []
  else
    match audioBlob with
    | none => []
    | some b => if b.size < 1000 then [] else enrolled

/-- Controller state: the React state of `VoiceAssistant` together with the
durable localStorage records and the enrollment mutual-exclusion ref. -/
structure SysState where
  ownerPassword : Option String
  owners : List String
  enrolledOwners : List String
  isEnrolled : Bool
  isVerified : Bool
  currentUser : Option String
  status : String
  statusMessage : String
  isEnrolling : Bool
  enrollmentInProgressRef : Bool
deriving DecidableEq, Repr

/-- `updateStatus` (VoiceAssistant.jsx line 102). -/
def updateStatus (st : SysState) (s msg : String) : SysState :=
  { st with status := s, statusMessage := msg }

/-- Response of the backend `startChallenge` operation. -/
structure ChallengeResp where
  success : Bool
  phrase : String
  sessionId : String
  message : String
deriving DecidableEq, Repr

/-- Response of the backend `verifyChallengeWithText` operation. -/
structure VerifyResult where
  success : Bool
  speakerMatch : Bool
  phraseMatch : Bool
deriving DecidableEq, Repr

/-- JS `enrolledOwners[0] || "owner"`: first element unless the list is empty
or its first element is the empty string (falsy). -/
def headOwner : List String → String
  | [] => "owner"
  | x :: _ => if x = "" then "owner" else x

/-- Render of one boolean check in the denied status message. -/
def checkMark (b : Bool) : String := if b then "✓" else "✗"

/-- The `denied` status message of `performVerification` (line 312): each of
the two checks is reported individually. -/
def deniedMsg (speakerOk phraseOk : Bool) : String :=
  "VOICE: " ++ checkMark speakerOk ++ "\nPHRASE: " ++ checkMark phraseOk

/-- `performVerification` (VoiceAssistant.jsx lines 237-318). `challenge` is
the outcome of `startChallenge`, `audioBlob`/`spokenText` the joined capture
result, and `verifyOp` the backend `verifyChallengeWithText` call, taking the
audio and the spoken text actually submitted. -/
def performVerification (st : SysState) (challenge : Except String ChallengeResp)
    (audioBlob : Option Blob) (spokenText : String)
    (verifyOp : Blob → String → Except String VerifyResult) : SysState :=
  if st.isEnrolled = false then updateStatus st "error" "NO VOICEPRINT"
  else
    match challenge with
    | .error m => updateStatus st "error" m
    | .ok ch =>
      if ch.success = false then updateStatus st "error" ch.message
      else
        let spoken := if spokenText = "" then ch.phrase else spokenText
        match audioBlob with
        | none => updateStatus st "error" "NO AUDIO DETECTED"
        | some b =>
          if b.size < 1000 then updateStatus st "error" "NO AUDIO DETECTED"
          else
            match verifyOp b spoken with
            | .error m => updateStatus st "error" m
            | .ok vr =>
              if vr.success = true ∧ vr.speakerMatch = true ∧ vr.phraseMatch = true then
                { updateStatus st "verified" "✓ AUTHENTICATED" with
                    isVerified := true
                    currentUser := some (headOwner st.enrolledOwners) }
              else updateStatus st "denied" (deniedMsg vr.speakerMatch vr.phraseMatch)

/-- The delayed status revert of `performVerification` (line 320): after the
fixed delay the status is reset to idle unless it is `verified`. -/
def statusAfterRevert (s : String) : String :=
  if s ≠ "verified" then "idle" else s

/-- Outcome of one `recordAudio` capture attempt. -/
inductive CaptureOutcome where
  | err (msg : String)
  | ok (b : Blob)
deriving DecidableEq, Repr

/-- Response of the backend `enrollUser` operation. -/
structure EnrollResp where
  success : Bool
  message : String
deriving DecidableEq, Repr

/-- Outcome of one `enrollUser` round-trip: a thrown error or a response. -/
inductive EnrollOutcome where
  | err (msg : String)
  | ok (r : EnrollResp)
deriving DecidableEq, Repr

/-- The three fixed enrollment phrases (VoiceAssistant.jsx lines 14-18). -/
def ENROLLMENT_PHRASES : List String :=
  ["My voice is my password", "SynapSense keeps me safe", "Home sweet home"]

/-- `markOwnerEnrolled` (VoiceAssistant.jsx lines 28-31): append the name to
the enrolled list unless already present. -/
def markOwnerEnrolled (enrolled : List String) (name : String) : List String :=
  if name ∈ enrolled then enrolled else enrolled ++ [name]

/-- The capture loop of `runEnrollment` (lines 189-209): one capture per
phrase; the first `CaptureError` aborts with the message and the number of
attempts made; success returns the collected samples and the attempt count. -/
def enrollLoop (caps : Nat → CaptureOutcome) :
    List String → Nat → List Blob → Except (String × Nat) (List Blob × Nat)
  | [], step, acc => .ok (acc.reverse, step)
  | _ :: rest, step, acc =>
    match caps step with
    | .err m => .error (m, step + 1)
    | .ok b => enrollLoop caps rest (step + 1) (b :: acc)

/-- `runEnrollment` (VoiceAssistant.jsx lines 178-232). `caps i` is the
outcome of the i-th `recordAudio` capture, `enrollOp` the backend
`enrollUser` call on the collected samples. Returns the next state and the
number of capture attempts that were made. -/
def runEnrollment (st : SysState) (name : String) (caps : Nat → CaptureOutcome)
    (enrollOp : List Blob → EnrollOutcome) : SysState × Nat :=
  if st.enrollmentInProgressRef = true then (st, 0)
  else
    let st1 := { st with enrollmentInProgressRef := true, isEnrolling := true }
    match enrollLoop caps ENROLLMENT_PHRASES 0 [] with
    | .error (m, att) =>
      ({ updateStatus st1 "error" m with
          isEnrolling := false, enrollmentInProgressRef := false }, att)
    | .ok (samples, att) =>
      let st2 :=
        match enrollOp samples with
        | .err m => updateStatus st1 "error" m
        | .ok r =>
          if r.success = true then
            { updateStatus st1 "success" "VOICEPRINT CREATED" with
                enrolledOwners := markOwnerEnrolled st1.enrolledOwners name
                isEnrolled := true }
          else updateStatus st1 "error" r.message
      ({ st2 with isEnrolling := false, enrollmentInProgressRef := false }, att)

/-- JS word character, the `\w` class: ASCII letter, digit or underscore. -/
def isWordChar (c : Char) : Bool := c.isAlphanum || c = '_'

/-- JS `text.toLowerCase()`, character by character (the transcripts at stake
are ASCII). -/
def jsToLower (s : String) : String := String.mk (s.data.map Char.toLower)

/-- JS `text.toUpperCase()`, character by character. -/
def jsToUpper (s : String) : String := String.mk (s.data.map Char.toUpper)

/-- JS `text.trim()`: strip leading and trailing whitespace. -/
def jsTrim (s : String) : String :=
  String.mk (((s.data.dropWhile Char.isWhitespace).reverse.dropWhile
    Char.isWhitespace).reverse)

/-- Character-list core of JS `String.prototype.includes`: does `pat` occur
as a contiguous run? -/
def includesChars (pat : List Char) : List Char → Bool
  | [] => pat.isEmpty
  | c :: rest => pat.isPrefixOf (c :: rest) || includesChars pat rest

/-- JS `s.includes(pat)`. -/
def strIncludes (s pat : String) : Bool := includesChars pat.toList s.toList

/-- Accumulate the maximal word-character runs of a character list; `acc`
holds the run in progress, reversed. -/
def wordRunsAux : List Char → List Char → List String
  | [], acc => if acc.isEmpty then [] else [String.mk acc.reverse]
  | c :: rest, acc =>
    if isWordChar c then wordRunsAux rest (c :: acc)
    else if acc.isEmpty then wordRunsAux rest acc
    else String.mk acc.reverse :: wordRunsAux rest []

/-- The maximal word-character runs of a string; a regex `\b(k)\b` with `k`
made of word characters matches the string exactly when `k` is one of them. -/
def wordsOf (s : String) : List String := wordRunsAux s.data []

/-- Capture group of the JS regex `/enroll\s+(\w+)/i` over a lowercased
character list: scan for an occurrence of `enroll` followed by at least one
whitespace character and then at least one word character; later occurrences
are tried when an earlier one is not followed by `\s+\w+`. -/
def enrollCapture : List Char → Option (List Char)
  | [] => none
  | c :: rest =>
    if "enroll".toList.isPrefixOf (c :: rest) then
      let suf := (c :: rest).drop 6
      let sp := suf.takeWhile Char.isWhitespace
      let w := (suf.drop sp.length).takeWhile isWordChar
      if sp.isEmpty || w.isEmpty then enrollCapture rest else some w
    else enrollCapture rest

/-- One row of the `NAV` table (lines 371-377): the word-boundary keyword
group of the regex, the route and the display name. -/
structure NavEntry where
  keywords : List String
  route : String
  name : String
deriving DecidableEq, Repr

/-- The `NAV` destination table (VoiceAssistant.jsx lines 371-377). -/
def NAV : List NavEntry :=
  [⟨["home", "dashboard", "main", "start"], "/", "Dashboard"⟩,
   ⟨["vibration", "sensor", "signal", "piezo"], "/vibrations", "Vibrations"⟩,
   ⟨["notification", "alert", "message"], "/notifications", "Notifications"⟩,
   ⟨["profile", "account"], "/profile", "Profile"⟩,
   ⟨["setting", "config", "option"], "/settings", "Settings"⟩]

/-- Does a `NAV` row match the transcript, given as its list of words? -/
def navMatches (ws : List String) (e : NavEntry) : Bool :=
  e.keywords.any (fun k => ws.contains k)

/-- First matching `NAV` row, mirroring the `for (const nav of NAV)` loop. -/
def matchNav (ws : List String) : Option NavEntry :=
  NAV.find? (navMatches ws)

/-- `addOwner` (VoiceAssistant.jsx lines 32-35): append unless present. -/
def addOwner (owners : List String) (name : String) : List String :=
  if name ∈ owners then owners else owners ++ [name]

/-- JS `Math.round(q * 100)` computed exactly on the rational: the floor of
`100 q + 1/2`, evaluated on the numerator and denominator with integer floor
division (the denominator is positive). -/
def roundPercent (q : ℚ) : ℤ :=
  (2 * (100 * q.num) + (q.den : ℤ)).fdiv (2 * (q.den : ℤ))

/-- The denied status message of the in-navigation identification check
(line 402), reporting the rounded confidence percentage. -/
def deniedNavMsg (score : ℚ) : String :=
  "🚫 ACCESS DENIED\nConfidence: " ++ toString (roundPercent score) ++ "%"

/-- Status message of the locked response (line 385). -/
def lockedMessage : String := "🔒 SAY \x27UNLOCK\x27 FIRST"

/-- Status message of the help response (line 348). -/
def helpMessage : String :=
  "COMMANDS:\n• Home / Dashboard\n• Vibrations / Sensors\n• Notifications\n• Profile\n• Settings"

/-- Status message of the unmatched-command response (line 426). -/
def unknownMessage : String := "❓ SAY \x27HELP\x27"

/-- Environment of one `processCommand` run: the backend per-profile
authenticate oracle consumed by `identifyVoice`, and whether the awaited
`identifyVoice` call itself rejects (the `catch` branch of lines 410-413). -/
structure Env where
  authOracle : String → AuthOutcome
  idFails : Bool

/-- Which branch of `processCommand` fired. -/
inductive CmdAction where
  | enrollCmd (name : String)
  | authCmd
  | helpCmd
  | resetCmd
  | navCmd
  | unknownCmd
deriving DecidableEq, Repr

/-- Observable outcome of one `processCommand` run: the next state, the route
passed to the router (`none` when the router is not invoked), the branch that
fired, and whether the in-navigation identification step was executed. -/
structure CmdResult where
  state : SysState
  navCalled : Option String
  action : CmdAction
  idQueried : Bool
deriving DecidableEq, Repr

/-- The `audioBlob && audioBlob.size > 1000` part of the line-392 guard. -/
def blobBig : Option Blob → Bool
  | none => false
  | some b => decide (1000 < b.size)

/-- The line-392 guard of the live re-identification step:
`enrolledOwners.length > 0 && audioBlob && audioBlob.size > 1000`. -/
def navGuard (st : SysState) (audioBlob : Option Blob) : Bool :=
  decide (0 < st.enrolledOwners.length) && blobBig audioBlob

/-- The navigation tail of the `NAV` loop body (lines 417-421): invoke the
router on the route and show the transient success status. -/
def navProceed (st : SysState) (nav : NavEntry) (queried : Bool) : CmdResult :=
  { state := updateStatus st "success" ("→ " ++ jsToUpper nav.name)
    navCalled := some nav.route
    action := .navCmd
    idQueried := queried }

/-- `processCommand` (VoiceAssistant.jsx lines 326-428): lowercase and trim
the transcript, then classify by fixed precedence — enroll, authenticate,
help, full reset, the `NAV` table, unmatched — and execute the branch. The
enroll and authenticate branches hand off to their own protocols, recorded
here as the fired action (the enroll branch still performs its `addOwner`
registry mutation). -/
def processCommand (st : SysState) (env : Env) (text : String)
    (audioBlob : Option Blob) : CmdResult :=
  let t := jsTrim (jsToLower text)
  if strIncludes t "enroll" then
    match enrollCapture t.toList with
    | some w =>
      let name := String.mk w
      if name = "my" ∨ name = "voice" ∨ name = "me" then
        { state := st, navCalled := none, action := .enrollCmd "owner", idQueried := false }
      else
        { state := { st with owners := addOwner st.owners name }
          navCalled := none, action := .enrollCmd name, idQueried := false }
    | none =>
      { state := st, navCalled := none, action := .enrollCmd "owner", idQueried := false }
  else if strIncludes t "verify" || strIncludes t "authenticate" ||
      strIncludes t "login" || strIncludes t "unlock" then
    { state := st, navCalled := none, action := .authCmd, idQueried := false }
  else if strIncludes t "help" || strIncludes t "what can" then
    { state := updateStatus st "info" helpMessage
      navCalled := none, action := .helpCmd, idQueried := false }
  else if strIncludes t "reset" && strIncludes t "all" then
    { state := { st with
        ownerPassword := none
        enrolledOwners := []
        owners := ["owner"]
        isEnrolled := false
        isVerified := false
        currentUser := none
        status := "success"
        statusMessage := "SYSTEM RESET" }
      navCalled := none, action := .resetCmd, idQueried := false }
  else
    match matchNav (wordsOf t) with
    | some nav =>
      if st.isVerified = false then
        { state := updateStatus st "locked" lockedMessage
          navCalled := none, action := .navCmd, idQueried := false }
      else if navGuard st audioBlob then
        if env.idFails then navProceed st nav true
        else
          let vc := identifyVoice st.enrolledOwners audioBlob env.authOracle
          if vc.identified = false then
            { state := updateStatus st "denied" (deniedNavMsg vc.score)
              navCalled := none, action := .navCmd, idQueried := true }
          else navProceed { st with currentUser := vc.user } nav true
      else navProceed st nav false
    | none =>
      { state := updateStatus st "idle" unknownMessage
        navCalled := none, action := .unknownCmd, idQueried := false }

/-! Concrete fixtures used by the counterexamples and the witnesses. -/

/-- Backend oracle of the spec example P5: profile `A` answers
non-authenticated with confidence 0.9, profile `B` authenticated with
confidence 0.3. -/
def oracleAB : String → AuthOutcome := fun o =>
  if o = "A" then .ok ⟨false, mkRat 9 10, "LOW_CONFIDENCE"⟩
  else .ok ⟨true, mkRat 3 10, "AUTHENTICATED"⟩

/-- Backend oracle that rejects every profile with confidence 0.5. -/
def denyOracle : String → AuthOutcome := fun _ => .ok ⟨false, mkRat 1 2, "DENIED"⟩

/-- A state with one enrolled profile, a stored PIN and no verified session. -/
def baseState : SysState :=
  ⟨some "1234", ["owner"], ["owner"], true, false, none, "idle", "", false, false⟩

/-- The same state after a successful challenge-response verification. -/
def verifiedState : SysState := { baseState with isVerified := true }

/-! Theorems. -/

/-- C1 counterexample: on the spec example `[(A,false,0.9), (B,true,0.3)]`
the code does not select B — the authenticated candidate B, having lower
confidence than the non-authenticated running best A, never replaces it, so
`identifyVoice` reports A with `identified = false`. -/
theorem identify_example_selects_A_not_B :
    (identifyVoice ["A", "B"] (some ⟨2000⟩) oracleAB).user ≠ some "B" ∧
    (identifyVoice ["A", "B"] (some ⟨2000⟩) oracleAB).identified = false ∧
    identifyVoice ["A", "B"] (some ⟨2000⟩) oracleAB =
      ⟨false, some "A", mkRat 9 10, none, some "LOW_CONFIDENCE"⟩ := by
  decide

/-- C1 (amended): the running best match of `identifyVoice` obeys this
precedence — a non-authenticated candidate never displaces an authenticated
running best; a candidate whose authenticated flag equals that of the running
best wins exactly when its confidence is strictly higher; but an
authenticated candidate with lower confidence than a non-authenticated
running best does not win, so on `[(A,false,0.9), (B,true,0.3)]` the function
selects A with `identified = false`. -/
theorem identify_best_match_precedence :
    (∀ (oracle : String → AuthOutcome) (best : BestMatch) (owner : String)
        (r : AuthResult), oracle owner = .ok r → r.decision ≠ "NOT_ENROLLED" →
        best.authenticated = true → r.authenticated = false →
        scanStep oracle best owner = best) ∧
    (∀ (oracle : String → AuthOutcome) (best : BestMatch) (owner : String)
        (r : AuthResult), oracle owner = .ok r → r.decision ≠ "NOT_ENROLLED" →
        r.authenticated = best.authenticated →
        scanStep oracle best owner =
          if best.score < r.confidence then
            ⟨some owner, r.confidence, r.authenticated, r.decision⟩
          else best) ∧
    identifyVoice ["A", "B"] (some ⟨2000⟩) oracleAB =
      ⟨false, some "A", mkRat 9 10, none, some "LOW_CONFIDENCE"⟩ := by
  refine ⟨?_, ?_, by decide⟩
  · intro oracle best owner r hOk hDec hBest hR
    simp [scanStep, hOk, hDec, hBest, hR]
  · intro oracle best owner r hOk hDec hEq
    rcases hb : best.authenticated with _ | _
    · rw [hb] at hEq
      by_cases hlt : best.score < r.confidence
      · simp [scanStep, hOk, hDec, hEq, hb, hlt]
      · simp [scanStep, hOk, hDec, hEq, hb, hlt]
    · rw [hb] at hEq
      by_cases hlt : best.score < r.confidence
      · simp [scanStep, hOk, hDec, hEq, hb, hlt]
      · simp [scanStep, hOk, hDec, hEq, hb, hlt]

/-- C1 witness: the amended precedence applied at concrete inputs — an
authenticated running best survives a non-authenticated candidate, and among
two non-authenticated candidates the higher confidence wins. -/
theorem identify_best_match_precedence_witness :
    scanStep oracleAB ⟨some "C", mkRat 1 5, true, "AUTHENTICATED"⟩ "A" =
      ⟨some "C", mkRat 1 5, true, "AUTHENTICATED"⟩ ∧
    scanStep oracleAB ⟨some "C", mkRat 1 5, false, "DENIED"⟩ "A" =
      ⟨some "A", mkRat 9 10, false, "LOW_CONFIDENCE"⟩ := by
  constructor
  · exact identify_best_match_precedence.1 oracleAB
      ⟨some "C", mkRat 1 5, true, "AUTHENTICATED"⟩ "A"
      ⟨false, mkRat 9 10, "LOW_CONFIDENCE"⟩ (by decide) (by decide) rfl rfl
  · have h := identify_best_match_precedence.2.1 oracleAB
      ⟨some "C", mkRat 1 5, false, "DENIED"⟩ "A"
      ⟨false, mkRat 9 10, "LOW_CONFIDENCE"⟩ (by decide) (by decide) rfl
    rw [h]
    decide

/-- C2 counterexample: a `verifyChallengeWithText` result whose two match
booleans are both true but whose `success` flag is false yields `denied`, not
`verified` — the session is not bound and the status message shows both
checks as passed. -/
theorem verification_needs_success_flag :
    performVerification baseState (.ok ⟨true, "p", "s", ""⟩) (some ⟨1500⟩) "x"
        (fun _ _ => .ok ⟨false, true, true⟩) =
      updateStatus baseState "denied" (deniedMsg true true) ∧
    (performVerification baseState (.ok ⟨true, "p", "s", ""⟩) (some ⟨1500⟩) "x"
        (fun _ _ => .ok ⟨false, true, true⟩)).isVerified = false ∧
    (performVerification baseState (.ok ⟨true, "p", "s", ""⟩) (some ⟨1500⟩) "x"
        (fun _ _ => .ok ⟨false, true, true⟩)).status ≠ "verified" := by
  decide

/-- C2 (amended): in a challenge-response run that reaches the verify call,
`verified` status requires `success`, `speakerMatch` and `phraseMatch` all
true; it then binds `currentUser` to the target profile, sets
`isVerified = true`, and the delayed revert leaves the `verified` status in
place. Any other combination of the three booleans yields `denied` with a
status message reporting the speaker check and the phrase check
individually. -/
theorem verification_verdict (st : SysState) (ch : ChallengeResp) (b : Blob)
    (spokenText : String)
    (verifyOp : Blob → String → Except String VerifyResult) (vr : VerifyResult)
    (hEnr : st.isEnrolled = true) (hch : ch.success = true)
    (hb : ¬ b.size < 1000)
    (hv : verifyOp b (if spokenText = "" then ch.phrase else spokenText) = .ok vr) :
    (vr.success = true ∧ vr.speakerMatch = true ∧ vr.phraseMatch = true →
      performVerification st (.ok ch) (some b) spokenText verifyOp =
        { updateStatus st "verified" "✓ AUTHENTICATED" with
            isVerified := true
            currentUser := some (headOwner st.enrolledOwners) } ∧
      statusAfterRevert "verified" = "verified") ∧
    (¬ (vr.success = true ∧ vr.speakerMatch = true ∧ vr.phraseMatch = true) →
      performVerification st (.ok ch) (some b) spokenText verifyOp =
        updateStatus st "denied" (deniedMsg vr.speakerMatch vr.phraseMatch)) := by
  constructor
  · intro hAll
    refine ⟨?_, by decide⟩
    simp [performVerification, hEnr, hch, hb, hv, hAll]
  · intro hNot
    simp [performVerification, hEnr, hch, hb, hv, hNot]

/-- C2 witness: a fully successful verify result at concrete inputs produces
the bound, persistent verified session. -/
theorem verification_verdict_witness :
    performVerification baseState (.ok ⟨true, "p", "s", ""⟩) (some ⟨1500⟩) ""
        (fun _ _ => .ok ⟨true, true, true⟩) =
      { updateStatus baseState "verified" "✓ AUTHENTICATED" with
          isVerified := true
          currentUser := some (headOwner baseState.enrolledOwners) } ∧
    statusAfterRevert "verified" = "verified" :=
  (verification_verdict baseState ⟨true, "p", "s", ""⟩ ⟨1500⟩ ""
      (fun _ _ => .ok ⟨true, true, true⟩) ⟨true, true, true⟩ rfl rfl
      (by decide) rfl).1 ⟨rfl, rfl, rfl⟩

/-- C7: attempting to start an enrollment while one is already in progress
returns immediately with no state change and no capture attempt. -/
theorem enrollment_reentry_no_change (st : SysState) (name : String)
    (caps : Nat → CaptureOutcome) (enrollOp : List Blob → EnrollOutcome)
    (h : st.enrollmentInProgressRef = true) :
    runEnrollment st name caps enrollOp = (st, 0) := by
  simp [runEnrollment, h]

/-- C7 witness: the re-entry guard at a concrete state. -/
theorem enrollment_reentry_no_change_witness :
    runEnrollment { baseState with enrollmentInProgressRef := true } "guest"
        (fun _ => .ok ⟨5000⟩) (fun _ => .ok ⟨true, ""⟩) =
      ({ baseState with enrollmentInProgressRef := true }, 0) :=
  enrollment_reentry_no_change { baseState with enrollmentInProgressRef := true }
    "guest" (fun _ => .ok ⟨5000⟩) (fun _ => .ok ⟨true, ""⟩) rfl

/-- C9: with no enrolled profiles, `identifyVoice` is the open gate — it
returns `identified = true` with score 1 for every audio sample, and queries
the backend for no profile. -/
theorem identify_empty_enrolled_open_gate (audioBlob : Option Blob)
    (oracle : String → AuthOutcome) :
    identifyVoice [] audioBlob oracle = ⟨true, none, 1, none, none⟩ ∧
    identifyQueried [] audioBlob = [] := by
  constructor <;> rfl

/-- C9 witness: the open gate at a concrete small sample. -/
theorem identify_empty_enrolled_open_gate_witness :
    identifyVoice [] (some ⟨3⟩) denyOracle = ⟨true, none, 1, none, none⟩ ∧
    identifyQueried [] (some ⟨3⟩) = [] :=
  identify_empty_enrolled_open_gate (some ⟨3⟩) denyOracle

/-- A profile just marked enrolled is a member of the enrolled list. -/
lemma mem_markOwnerEnrolled (enrolled : List String) (name : String) :
    name ∈ markOwnerEnrolled enrolled name := by
  by_cases h : name ∈ enrolled <;> simp [markOwnerEnrolled, h]

/-- C6: an enrollment run entered past the guard reaches the success status
exactly when all three captures succeed and the backend enroll call on the
three samples reports success; the profile is then marked enrolled. A capture
failure at any of the three steps aborts immediately — status `error` with
the capture message, registry and the rest of the state unchanged, guard
released, and the attempt count shows the failing capture was the last one
tried. -/
theorem enrollment_requires_three_captures (st : SysState) (name : String)
    (caps : Nat → CaptureOutcome) (enrollOp : List Blob → EnrollOutcome)
    (hGuard : st.enrollmentInProgressRef = false) :
    ((runEnrollment st name caps enrollOp).1.status = "success" ↔
      ∃ b0 b1 b2 r, caps 0 = .ok b0 ∧ caps 1 = .ok b1 ∧ caps 2 = .ok b2 ∧
        enrollOp [b0, b1, b2] = .ok r ∧ r.success = true) ∧
    ((runEnrollment st name caps enrollOp).1.status = "success" →
      name ∈ (runEnrollment st name caps enrollOp).1.enrolledOwners) ∧
    (∀ m, caps 0 = .err m →
      runEnrollment st name caps enrollOp =
        ({ st with
            status := "error"
            statusMessage := m
            isEnrolling := false
            enrollmentInProgressRef := false }, 1)) ∧
    (∀ b0 m, caps 0 = .ok b0 → caps 1 = .err m →
      runEnrollment st name caps enrollOp =
        ({ st with
            status := "error"
            statusMessage := m
            isEnrolling := false
            enrollmentInProgressRef := false }, 2)) ∧
    (∀ b0 b1 m, caps 0 = .ok b0 → caps 1 = .ok b1 → caps 2 = .err m →
      runEnrollment st name caps enrollOp =
        ({ st with
            status := "error"
            statusMessage := m
            isEnrolling := false
            enrollmentInProgressRef := false }, 3)) := by
  refine ⟨⟨?_, ?_⟩, ?_, ?_, ?_, ?_⟩
  · intro h
    rcases h0 : caps 0 with m0 | b0
    · simp [runEnrollment, enrollLoop, ENROLLMENT_PHRASES, hGuard, h0,
        updateStatus] at h
    · rcases h1 : caps 1 with m1 | b1
      · simp [runEnrollment, enrollLoop, ENROLLMENT_PHRASES, hGuard, h0, h1,
          updateStatus] at h
      · rcases h2 : caps 2 with m2 | b2
        · simp [runEnrollment, enrollLoop, ENROLLMENT_PHRASES, hGuard, h0, h1,
            h2, updateStatus] at h
        · rcases he : enrollOp [b0, b1, b2] with m | r
          · simp [runEnrollment, enrollLoop, ENROLLMENT_PHRASES, hGuard, h0,
              h1, h2, he, updateStatus] at h
          · rcases hr : r.success with _ | _
            · simp [runEnrollment, enrollLoop, ENROLLMENT_PHRASES, hGuard, h0,
                h1, h2, he, hr, updateStatus] at h
            · exact ⟨b0, b1, b2, r, rfl, rfl, rfl, he, hr⟩
  · rintro ⟨b0, b1, b2, r, h0, h1, h2, he, hr⟩
    simp [runEnrollment, enrollLoop, ENROLLMENT_PHRASES, hGuard, h0, h1, h2,
      he, hr, updateStatus]
  · intro h
    rcases h0 : caps 0 with m0 | b0
    · simp [runEnrollment, enrollLoop, ENROLLMENT_PHRASES, hGuard, h0,
        updateStatus] at h
    · rcases h1 : caps 1 with m1 | b1
      · simp [runEnrollment, enrollLoop, ENROLLMENT_PHRASES, hGuard, h0, h1,
          updateStatus] at h
      · rcases h2 : caps 2 with m2 | b2
        · simp [runEnrollment, enrollLoop, ENROLLMENT_PHRASES, hGuard, h0, h1,
            h2, updateStatus] at h
        · rcases he : enrollOp [b0, b1, b2] with m | r
          · simp [runEnrollment, enrollLoop, ENROLLMENT_PHRASES, hGuard, h0,
              h1, h2, he, updateStatus] at h
          · rcases hr : r.success with _ | _
            · simp [runEnrollment, enrollLoop, ENROLLMENT_PHRASES, hGuard, h0,
                h1, h2, he, hr, updateStatus] at h
            · simp [runEnrollment, enrollLoop, ENROLLMENT_PHRASES, hGuard, h0,
                h1, h2, he, hr, updateStatus, mem_markOwnerEnrolled]
  · intro m h0
    simp [runEnrollment, enrollLoop, ENROLLMENT_PHRASES, hGuard, h0,
      updateStatus]
  · intro b0 m h0 h1
    simp [runEnrollment, enrollLoop, ENROLLMENT_PHRASES, hGuard, h0, h1,
      updateStatus]
  · intro b0 b1 m h0 h1 h2
    simp [runEnrollment, enrollLoop, ENROLLMENT_PHRASES, hGuard, h0, h1, h2,
      updateStatus]

/-- C6 witness: three successful captures and a successful backend enroll at
a concrete state reach the success status with the profile enrolled; and a
failure on the second capture aborts with two attempts. -/
theorem enrollment_requires_three_captures_witness :
    (runEnrollment baseState "guest" (fun _ => .ok ⟨5000⟩)
        (fun _ => .ok ⟨true, ""⟩)).1.status = "success" ∧
    "guest" ∈ (runEnrollment baseState "guest" (fun _ => .ok ⟨5000⟩)
        (fun _ => .ok ⟨true, ""⟩)).1.enrolledOwners ∧
    runEnrollment baseState "guest"
        (fun i => if i = 0 then .ok ⟨5000⟩ else .err "MIC FAIL")
        (fun _ => .ok ⟨true, ""⟩) =
      ({ baseState with
          status := "error"
          statusMessage := "MIC FAIL"
          isEnrolling := false
          enrollmentInProgressRef := false }, 2) := by
  have h := enrollment_requires_three_captures baseState "guest"
    (fun _ => .ok ⟨5000⟩) (fun _ => .ok ⟨true, ""⟩) rfl
  have h2 := enrollment_requires_three_captures baseState "guest"
    (fun i => if i = 0 then .ok ⟨5000⟩ else .err "MIC FAIL")
    (fun _ => .ok ⟨true, ""⟩) rfl
  have hs : (runEnrollment baseState "guest" (fun _ => .ok ⟨5000⟩)
      (fun _ => .ok ⟨true, ""⟩)).1.status = "success" :=
    h.1.mpr ⟨⟨5000⟩, ⟨5000⟩, ⟨5000⟩, ⟨true, ""⟩, rfl, rfl, rfl, rfl, rfl⟩
  exact ⟨hs, h.2.1 hs, h2.2.2.2.1 ⟨5000⟩ "MIC FAIL" rfl rfl⟩

/-- C8: a transcript containing both `reset` and `all` that is not captured
by a higher-precedence intent performs the full reset: the PIN is cleared,
the enrolled list emptied, the profile list restored to the default profile
alone, `verified` forced to false and `currentUser` cleared; the router is
not invoked. -/
theorem reset_all_clears_state (st : SysState) (env : Env) (text : String)
    (audioBlob : Option Blob)
    (hEnroll : strIncludes (jsTrim (jsToLower text)) "enroll" = false)
    (hVerify : strIncludes (jsTrim (jsToLower text)) "verify" = false)
    (hAuth : strIncludes (jsTrim (jsToLower text)) "authenticate" = false)
    (hLogin : strIncludes (jsTrim (jsToLower text)) "login" = false)
    (hUnlock : strIncludes (jsTrim (jsToLower text)) "unlock" = false)
    (hHelp : strIncludes (jsTrim (jsToLower text)) "help" = false)
    (hWhat : strIncludes (jsTrim (jsToLower text)) "what can" = false)
    (hReset : strIncludes (jsTrim (jsToLower text)) "reset" = true)
    (hAll : strIncludes (jsTrim (jsToLower text)) "all" = true) :
    processCommand st env text audioBlob =
      { state := { st with
          ownerPassword := none
          enrolledOwners := []
          owners := ["owner"]
          isEnrolled := false
          isVerified := false
          currentUser := none
          status := "success"
          statusMessage := "SYSTEM RESET" }
        navCalled := none, action := .resetCmd, idQueried := false } := by
  simp [processCommand, hEnroll, hVerify, hAuth, hLogin, hUnlock, hHelp,
    hWhat, hReset, hAll]

/-- C8 witness: the full reset on the transcript `reset all` from the
verified base state. -/
theorem reset_all_clears_state_witness :
    processCommand verifiedState ⟨denyOracle, false⟩ "reset all" none =
      { state := { verifiedState with
          ownerPassword := none
          enrolledOwners := []
          owners := ["owner"]
          isEnrolled := false
          isVerified := false
          currentUser := none
          status := "success"
          statusMessage := "SYSTEM RESET" }
        navCalled := none, action := .resetCmd, idQueried := false } :=
  reset_all_clears_state verifiedState ⟨denyOracle, false⟩ "reset all" none
    (by decide) (by decide) (by decide) (by decide) (by decide) (by decide)
    (by decide) (by decide) (by decide)

/-- C3: a transcript classified as a navigate intent (a `NAV` row matches and
no higher-precedence intent fires) while the session is not verified yields
the locked status and does not invoke the router. -/
theorem navigate_locked_when_unverified (st : SysState) (env : Env)
    (text : String) (audioBlob : Option Blob) (nav : NavEntry)
    (hEnroll : strIncludes (jsTrim (jsToLower text)) "enroll" = false)
    (hVerify : strIncludes (jsTrim (jsToLower text)) "verify" = false)
    (hAuth : strIncludes (jsTrim (jsToLower text)) "authenticate" = false)
    (hLogin : strIncludes (jsTrim (jsToLower text)) "login" = false)
    (hUnlock : strIncludes (jsTrim (jsToLower text)) "unlock" = false)
    (hHelp : strIncludes (jsTrim (jsToLower text)) "help" = false)
    (hWhat : strIncludes (jsTrim (jsToLower text)) "what can" = false)
    (hReset : (strIncludes (jsTrim (jsToLower text)) "reset" &&
      strIncludes (jsTrim (jsToLower text)) "all") = false)
    (hNav : matchNav (wordsOf (jsTrim (jsToLower text))) = some nav)
    (hUnverified : st.isVerified = false) :
    processCommand st env text audioBlob =
      { state := updateStatus st "locked" lockedMessage
        navCalled := none, action := .navCmd, idQueried := false } := by
  simp [processCommand, hEnroll, hVerify, hAuth, hLogin, hUnlock, hHelp,
    hWhat, hReset, hNav, hUnverified]

/-- C3 witness: the transcript `go home` while unverified is locked out
(spec Scenario A). -/
theorem navigate_locked_when_unverified_witness :
    processCommand baseState ⟨denyOracle, false⟩ "go home" none =
      { state := updateStatus baseState "locked" lockedMessage
        navCalled := none, action := .navCmd, idQueried := false } :=
  navigate_locked_when_unverified baseState ⟨denyOracle, false⟩ "go home" none
    ⟨["home", "dashboard", "main", "start"], "/", "Dashboard"⟩
    (by decide) (by decide) (by decide) (by decide) (by decide) (by decide)
    (by decide) (by decide) (by decide) rfl

/-- A true line-392 guard forces the audio sample to exist with more than
1000 bytes. -/
lemma navGuard_eq_true {st : SysState} {audioBlob : Option Blob}
    (h : navGuard st audioBlob = true) :
    ∃ b, audioBlob = some b ∧ 1000 < b.size := by
  rcases audioBlob with _ | b
  · simp [navGuard, blobBig] at h
  · simp only [navGuard, blobBig, Bool.and_eq_true, decide_eq_true_eq] at h
    exact ⟨b, rfl, h.2⟩

/-- With a false line-392 guard, no branch of `processCommand` executes the
identification step. -/
lemma idQueried_false_of_navGuard_false (st : SysState) (env : Env)
    (text : String) (audioBlob : Option Blob)
    (hg : navGuard st audioBlob = false) :
    (processCommand st env text audioBlob).idQueried = false := by
  simp only [processCommand]
  repeat first | rfl | split
  all_goals simp_all [navProceed]

/-- C4: on a navigate command of a verified session whose line-392 guard
passes, a thrown identification call is swallowed and navigation proceeds
(fail-open), whereas an identification that completes with
`identified = false` denies the navigation — the router is not invoked and
the status message reports the confidence. -/
theorem navigation_identify_fail_open (st : SysState) (env : Env)
    (text : String) (audioBlob : Option Blob) (nav : NavEntry)
    (hEnroll : strIncludes (jsTrim (jsToLower text)) "enroll" = false)
    (hVerify : strIncludes (jsTrim (jsToLower text)) "verify" = false)
    (hAuth : strIncludes (jsTrim (jsToLower text)) "authenticate" = false)
    (hLogin : strIncludes (jsTrim (jsToLower text)) "login" = false)
    (hUnlock : strIncludes (jsTrim (jsToLower text)) "unlock" = false)
    (hHelp : strIncludes (jsTrim (jsToLower text)) "help" = false)
    (hWhat : strIncludes (jsTrim (jsToLower text)) "what can" = false)
    (hReset : (strIncludes (jsTrim (jsToLower text)) "reset" &&
      strIncludes (jsTrim (jsToLower text)) "all") = false)
    (hNav : matchNav (wordsOf (jsTrim (jsToLower text))) = some nav)
    (hVerified : st.isVerified = true)
    (hGuard : navGuard st audioBlob = true) :
    (env.idFails = true →
      processCommand st env text audioBlob =
        { state := updateStatus st "success" ("→ " ++ jsToUpper nav.name)
          navCalled := some nav.route, action := .navCmd, idQueried := true }) ∧
    (env.idFails = false →
      (identifyVoice st.enrolledOwners audioBlob env.authOracle).identified = false →
      processCommand st env text audioBlob =
        { state := updateStatus st "denied"
            (deniedNavMsg (identifyVoice st.enrolledOwners audioBlob env.authOracle).score)
          navCalled := none, action := .navCmd, idQueried := true }) := by
  constructor
  · intro hFails
    simp [processCommand, hEnroll, hVerify, hAuth, hLogin, hUnlock, hHelp,
      hWhat, hReset, hNav, hVerified, hGuard, hFails, navProceed]
  · intro hFails hId
    simp [processCommand, hEnroll, hVerify, hAuth, hLogin, hUnlock, hHelp,
      hWhat, hReset, hNav, hVerified, hGuard, hFails, hId]

/-- C4 witness: with a verified session, `go home` and a 2000-byte sample, a
rejecting identification call denies navigation while a throwing one lets it
proceed. -/
theorem navigation_identify_fail_open_witness :
    processCommand verifiedState ⟨denyOracle, true⟩ "go home" (some ⟨2000⟩) =
      { state := updateStatus verifiedState "success" ("→ " ++ jsToUpper "Dashboard")
        navCalled := some "/", action := .navCmd, idQueried := true } ∧
    processCommand verifiedState ⟨denyOracle, false⟩ "go home" (some ⟨2000⟩) =
      { state := updateStatus verifiedState "denied"
          (deniedNavMsg (identifyVoice verifiedState.enrolledOwners (some ⟨2000⟩)
            denyOracle).score)
        navCalled := none, action := .navCmd, idQueried := true } := by
  constructor
  · exact (navigation_identify_fail_open verifiedState ⟨denyOracle, true⟩
      "go home" (some ⟨2000⟩) ⟨["home", "dashboard", "main", "start"], "/", "Dashboard"⟩
      (by decide) (by decide) (by decide) (by decide) (by decide) (by decide)
      (by decide) (by decide) rfl rfl (by decide)).1 rfl
  · exact (navigation_identify_fail_open verifiedState ⟨denyOracle, false⟩
      "go home" (some ⟨2000⟩) ⟨["home", "dashboard", "main", "start"], "/", "Dashboard"⟩
      (by decide) (by decide) (by decide) (by decide) (by decide) (by decide)
      (by decide) (by decide) rfl rfl (by decide)).2 rfl (by decide)

/-- C5: the live re-identification of a navigate command runs only when the
accompanying audio sample exists and exceeds 1000 bytes; when the sample is
absent or at most 1000 bytes the identification is skipped and navigation
proceeds unchecked, although `identifyVoice` itself would classify any
sample under 1000 bytes as absent audio and return `identified = false`. -/
theorem identify_skipped_for_small_audio :
    (∀ (st : SysState) (env : Env) (text : String) (audioBlob : Option Blob),
      (processCommand st env text audioBlob).idQueried = true →
      ∃ b, audioBlob = some b ∧ 1000 < b.size) ∧
    (∀ (st : SysState) (env : Env) (text : String) (audioBlob : Option Blob)
        (nav : NavEntry),
      strIncludes (jsTrim (jsToLower text)) "enroll" = false →
      strIncludes (jsTrim (jsToLower text)) "verify" = false →
      strIncludes (jsTrim (jsToLower text)) "authenticate" = false →
      strIncludes (jsTrim (jsToLower text)) "login" = false →
      strIncludes (jsTrim (jsToLower text)) "unlock" = false →
      strIncludes (jsTrim (jsToLower text)) "help" = false →
      strIncludes (jsTrim (jsToLower text)) "what can" = false →
      (strIncludes (jsTrim (jsToLower text)) "reset" &&
        strIncludes (jsTrim (jsToLower text)) "all") = false →
      matchNav (wordsOf (jsTrim (jsToLower text))) = some nav →
      st.isVerified = true → blobBig audioBlob = false →
      processCommand st env text audioBlob =
        { state := updateStatus st "success" ("→ " ++ jsToUpper nav.name)
          navCalled := some nav.route, action := .navCmd, idQueried := false }) ∧
    (∀ (enrolled : List String) (b : Blob) (oracle : String → AuthOutcome),
      enrolled ≠ [] → b.size < 1000 →
      identifyVoice enrolled (some b) oracle =
        ⟨false, none, 0, some "No audio", none⟩) := by
  refine ⟨?_, ?_, ?_⟩
  · intro st env text audioBlob h
    by_cases hg : navGuard st audioBlob = true
    · exact navGuard_eq_true hg
    · have hgf : navGuard st audioBlob = false := by
        revert hg
        cases navGuard st audioBlob <;> simp
      rw [idQueried_false_of_navGuard_false st env text audioBlob hgf] at h
      exact absurd h (by simp)
  · intro st env text audioBlob nav hEnroll hVerify hAuth hLogin hUnlock hHelp
      hWhat hReset hNav hVerified hBlob
    have hg : navGuard st audioBlob = false := by
      simp [navGuard, hBlob]
    simp [processCommand, hEnroll, hVerify, hAuth, hLogin, hUnlock, hHelp,
      hWhat, hReset, hNav, hVerified, hg, navProceed]
  · intro enrolled b oracle h1 h2
    simp [identifyVoice, h1, h2]

/-- C5 witness: a 1000-byte sample (the boundary) skips identification and
navigates anyway, while a 999-byte sample fed to `identifyVoice` with one
enrolled profile is classified as absent audio. -/
theorem identify_skipped_for_small_audio_witness :
    processCommand verifiedState ⟨denyOracle, false⟩ "go home" (some ⟨1000⟩) =
      { state := updateStatus verifiedState "success" ("→ " ++ jsToUpper "Dashboard")
        navCalled := some "/", action := .navCmd, idQueried := false } ∧
    identifyVoice ["owner"] (some ⟨999⟩) denyOracle =
      ⟨false, none, 0, some "No audio", none⟩ := by
  constructor
  · exact identify_skipped_for_small_audio.2.1 verifiedState ⟨denyOracle, false⟩
      "go home" (some ⟨1000⟩) ⟨["home", "dashboard", "main", "start"], "/", "Dashboard"⟩
      (by decide) (by decide) (by decide) (by decide) (by decide) (by decide)
      (by decide) (by decide) rfl rfl (by decide)
  · exact identify_skipped_for_small_audio.2.2 ["owner"] ⟨999⟩ denyOracle
      (by decide) (by decide)

/-- Folding the identification scan over profiles that all throw or answer
`NOT_ENROLLED` leaves the running best match unchanged. -/
lemma foldl_scanStep_skip (oracle : String → AuthOutcome) (l : List String)
    (best : BestMatch)
    (h : ∀ o ∈ l, oracle o = .err ∨
      ∃ r, oracle o = .ok r ∧ r.decision = "NOT_ENROLLED") :
    l.foldl (scanStep oracle) best = best := by
  induction l generalizing best with
  | nil => rfl
  | cons o rest ih =>
    have hstep : scanStep oracle best o = best := by
      rcases h o (by simp) with he | ⟨r, hr, hd⟩
      · simp [scanStep, he]
      · simp [scanStep, hr, hd]
    rw [List.foldl_cons, hstep]
    exact ih best (fun o2 ho2 => h o2 (by simp [ho2]))

/-- When every per-profile call throws or answers `NOT_ENROLLED`, the scan
ends on the initial best match: a denial with no user and score 0. -/
lemma identifyVoice_all_skipped (enrolled : List String) (b : Blob)
    (oracle : String → AuthOutcome) (h1 : enrolled ≠ [])
    (h2 : ¬ b.size < 1000)
    (h3 : ∀ o ∈ enrolled, oracle o = .err ∨
      ∃ r, oracle o = .ok r ∧ r.decision = "NOT_ENROLLED") :
    identifyVoice enrolled (some b) oracle = ⟨false, none, 0, none, some ""⟩ := by
  simp [identifyVoice, h1, h2,
    foldl_scanStep_skip oracle enrolled ⟨none, 0, false, ""⟩ h3]

/-- C10: with a non-empty enrolled list and a sufficiently long sample, if
every per-profile authenticate call throws or answers `NOT_ENROLLED`,
`identifyVoice` returns a denial — `identified = false`, no user, score 0 —
rather than throwing; consequently a complete backend outage during the scan
denies the navigation with confidence 0 instead of taking the fail-open path
reserved for a thrown identification call. -/
theorem identify_outage_denies_with_zero :
    (∀ (enrolled : List String) (b : Blob) (oracle : String → AuthOutcome),
      enrolled ≠ [] → ¬ b.size < 1000 →
      (∀ o ∈ enrolled, oracle o = .err ∨
        ∃ r, oracle o = .ok r ∧ r.decision = "NOT_ENROLLED") →
      identifyVoice enrolled (some b) oracle =
        ⟨false, none, 0, none, some ""⟩) ∧
    (∀ (st : SysState) (env : Env) (text : String) (audioBlob : Option Blob)
        (nav : NavEntry),
      strIncludes (jsTrim (jsToLower text)) "enroll" = false →
      strIncludes (jsTrim (jsToLower text)) "verify" = false →
      strIncludes (jsTrim (jsToLower text)) "authenticate" = false →
      strIncludes (jsTrim (jsToLower text)) "login" = false →
      strIncludes (jsTrim (jsToLower text)) "unlock" = false →
      strIncludes (jsTrim (jsToLower text)) "help" = false →
      strIncludes (jsTrim (jsToLower text)) "what can" = false →
      (strIncludes (jsTrim (jsToLower text)) "reset" &&
        strIncludes (jsTrim (jsToLower text)) "all") = false →
      matchNav (wordsOf (jsTrim (jsToLower text))) = some nav →
      st.isVerified = true → navGuard st audioBlob = true →
      env.idFails = false →
      (∀ o ∈ st.enrolledOwners, env.authOracle o = .err ∨
        ∃ r, env.authOracle o = .ok r ∧ r.decision = "NOT_ENROLLED") →
      processCommand st env text audioBlob =
        { state := updateStatus st "denied" (deniedNavMsg 0)
          navCalled := none, action := .navCmd, idQueried := true }) := by
  constructor
  · exact identifyVoice_all_skipped
  · intro st env text audioBlob nav hEnroll hVerify hAuth hLogin hUnlock hHelp
      hWhat hReset hNav hVerified hGuard hFails hOracle
    obtain ⟨b, rfl, hbs⟩ := navGuard_eq_true hGuard
    have hNE : st.enrolledOwners ≠ [] := by
      intro hE
      simp [navGuard, hE] at hGuard
    have hid := identifyVoice_all_skipped st.enrolledOwners b env.authOracle
      hNE (by omega) hOracle
    simp [processCommand, hEnroll, hVerify, hAuth, hLogin, hUnlock, hHelp,
      hWhat, hReset, hNav, hVerified, hGuard, hFails, hid]

/-- C10 witness: one enrolled profile whose authenticate call throws — the
scan returns the zero denial, and the navigation is denied at 0%
confidence. -/
theorem identify_outage_denies_with_zero_witness :
    identifyVoice ["owner"] (some ⟨2000⟩) (fun _ => .err) =
      ⟨false, none, 0, none, some ""⟩ ∧
    processCommand verifiedState ⟨fun _ => .err, false⟩ "go home" (some ⟨2000⟩) =
      { state := updateStatus verifiedState "denied" (deniedNavMsg 0)
        navCalled := none, action := .navCmd, idQueried := true } := by
  constructor
  · exact identify_outage_denies_with_zero.1 ["owner"] ⟨2000⟩ (fun _ => .err)
      (by decide) (by decide) (fun o _ => Or.inl rfl)
  · exact identify_outage_denies_with_zero.2 verifiedState ⟨fun _ => .err, false⟩
      "go home" (some ⟨2000⟩) ⟨["home", "dashboard", "main", "start"], "/", "Dashboard"⟩
      (by decide) (by decide) (by decide) (by decide) (by decide) (by decide)
      (by decide) (by decide) rfl rfl (by decide) rfl (fun o _ => Or.inl rfl)

end Synap
